import Mathlib

/-!
Verification development for the agentic-chatbot turn-execution engine.

The definitions below are a shallow embedding of the Python source:
  * `run_callback_with_events`  — app/agents/callbacks.py (the "Dispatcher")
  * `run_tool_and_parse_output`, `execute` — app/agents/tools/base.py (BaseTool)
  * `processTurn` — app/agents/llm_agent.py (LLMAgent._process_turn)

Python dynamic values are modelled by the closed type `Value` covering the
runtime types the engine actually inspects with `isinstance` (str, None,
int as a representative non-str scalar, dict, AgentEvent, list).  Machine
state that Python mutates (the `CallbackContext` slots) is passed
explicitly.  `async` suspension is irrelevant to the observable event
sequences, so coroutines are modelled by their eventual outcome
(returned value, yielded event list, or raised exception).
-/

namespace AgenticChatbot

/-- A primitive JSON-ish value inside a tool-argument dict. -/
inductive Prim where
  | pStr (s : String)
  | pInt (n : Int)
  | pNone
deriving DecidableEq

/-- A parsed tool-argument mapping (Python `dict[str, Any]`), in insertion order. -/
abbrev Args := List (String × Prim)

/-- app/agents/models.py `AgentEvent`: one observable event of a turn.
Fields mirror the pydantic model; absent optional fields are `none`. -/
structure AgentEvent where
  type : String
  content : String
  tool_name : Option String := none
  tool_args : Option Args := none
  tool_call_id : Option String := none
  callback_type : Option String := none
deriving DecidableEq

/-- An element of a Python list returned by a callback: the code iterates the
list and keeps only `AgentEvent` instances, so non-event elements matter. -/
inductive ListItem where
  | liEvent (e : AgentEvent)
  | liStr (s : String)
  | liInt (n : Int)
  | liNone
deriving DecidableEq

/-- A Python runtime value as inspected by the engine's `isinstance` checks. -/
inductive Value where
  | vStr (s : String)
  | vNone
  | vInt (n : Int)
  | vDict (d : Args)
  | vEvent (e : AgentEvent)
  | vList (l : List ListItem)
deriving DecidableEq

/-- Python truthiness (`if x:`) of the modelled values: empty string, zero,
empty collections and `None` are falsy; object instances are truthy. -/
def truthy : Value → Bool
  | .vStr s => !(s == "")
  | .vNone => false
  | .vInt n => !(n == 0)
  | .vDict d => !d.isEmpty
  | .vEvent _ => true
  | .vList l => !l.isEmpty

/-- Python `type(x).__name__` for the modelled values. -/
def pyTypeName : Value → String
  | .vStr _ => "str"
  | .vNone => "NoneType"
  | .vInt _ => "int"
  | .vDict _ => "dict"
  | .vEvent _ => "AgentEvent"
  | .vList _ => "list"

/-- Python `str(type(x))`, as interpolated by `f"... {type(result)}"`. -/
def pyTypeRepr : Value → String
  | .vEvent _ => "<class \x27app.agents.models.AgentEvent\x27>"
  | v => "<class \x27" ++ pyTypeName v ++ "\x27>"

/-- Python `repr` of a primitive (used for dict members inside `str(dict)`). -/
def primRepr : Prim → String
  | .pStr s => "\x27" ++ s ++ "\x27"
  | .pInt n => toString n
  | .pNone => "None"

/-- Python `str` of a dict of primitives, e.g. `{'query': 'x', 'k': 1}`. -/
def dictRepr (d : Args) : String :=
  "\x7b" ++ String.intercalate ", " (d.map fun kv => "\x27" ++ kv.1 ++ "\x27: " ++ primRepr kv.2) ++ "\x7d"

/-- `json.dumps` of a parsed tool-argument dict. -/
def jsonPrim : Prim → String
  | .pStr s => "\"" ++ s ++ "\""
  | .pInt n => toString n
  | .pNone => "null"

/-- `json.dumps(fn_args)` as used in the `tool_call` event content. -/
def jsonDumps (d : Args) : String :=
  "\x7b" ++ String.intercalate ", " (d.map fun kv => "\"" ++ kv.1 ++ "\": " ++ jsonPrim kv.2) ++ "\x7d"

/-- Python `repr` of an optional string field of a pydantic model. -/
def optStrRepr : Option String → String
  | none => "None"
  | some s => "\x27" ++ s ++ "\x27"

/-- Python `repr` of an optional dict field of a pydantic model. -/
def optArgsRepr : Option Args → String
  | none => "None"
  | some d => dictRepr d

/-- pydantic `BaseModel.__str__` of an `AgentEvent` (space-separated
`field=repr` pairs, as produced by pydantic v2). -/
def eventStr (e : AgentEvent) : String :=
  "type=" ++ optStrRepr (some e.type) ++ " content=" ++ optStrRepr (some e.content)
    ++ " tool_name=" ++ optStrRepr e.tool_name ++ " tool_args=" ++ optArgsRepr e.tool_args
    ++ " tool_call_id=" ++ optStrRepr e.tool_call_id ++ " callback_type=" ++ optStrRepr e.callback_type

/-- Python `repr` of a list element (for `str` of a returned list). -/
def listItemRepr : ListItem → String
  | .liEvent e => "AgentEvent(" ++ eventStr e ++ ")"
  | .liStr s => "\x27" ++ s ++ "\x27"
  | .liInt n => toString n
  | .liNone => "None"

/-- Python `str(x)` of a modelled value (used by f-string interpolation and
by `str(result)` when a tool result is stored). -/
def pyStr : Value → String
  | .vStr s => s
  | .vNone => "None"
  | .vInt n => toString n
  | .vDict d => dictRepr d
  | .vEvent e => eventStr e
  | .vList l => "[" ++ String.intercalate ", " (l.map listItemRepr) ++ "]"

/-!
## Callback Dispatcher — app/agents/callbacks.py, `run_callback_with_events`

A callback invocation is modelled by its observable behaviour:
  * `streaming evs upd` — `callback_fn(...)` returned an async generator that
    yields `evs` and, as its last assignment to the target slot (if any),
    writes `upd`;
  * `asyncReturn v` — a coroutine that resolves to the value `v`;
  * `syncReturn v` — a plain synchronous function that returned the
    non-awaitable value `v` (so `await result` raises `TypeError`);
  * `asyncRaise` — a coroutine that raises;
  * `streamingRaise` — an async generator that yields `evs`, leaves `upd` in
    the slot (if any), then raises mid-iteration.
-/

inductive CallbackBehavior where
  | streaming (events : List AgentEvent) (upd : Option Value)
  | asyncReturn (v : Value)
  | syncReturn (v : Value)
  | asyncRaise (ename emsg : String)
  | streamingRaise (events : List AgentEvent) (upd : Option Value) (ename emsg : String)
deriving DecidableEq

/-- Result of one Dispatcher invocation: the yielded events and the final
value of the target context slot. -/
structure DispatchOut where
  events : List AgentEvent
  slot : Value
deriving DecidableEq

/-- callbacks.py line 56: the opening `execute_callback` event. -/
def startEvent (ct : String) : AgentEvent :=
  { type := "execute_callback", content := "Running " ++ ct, callback_type := some ct }

/-- callbacks.py line 108: the closing `execute_callback_result` event,
interpolating the current value of the target slot. -/
def resultEvent (ct : String) (slot : Value) : AgentEvent :=
  { type := "execute_callback_result",
    content := "Completed " ++ ct ++ " with value: \x27" ++ pyStr slot ++ "\x27",
    callback_type := some ct }

/-- callbacks.py line 102: the `error` event produced for a caught exception,
content `f"{type(e).__name__}: {e}"`. -/
def errorEventCb (ct ename emsg : String) : AgentEvent :=
  { type := "error", content := ename ++ ": " ++ emsg, callback_type := some ct }

/-- callbacks.py line 95: the fallback event for an unclassified return value. -/
def unrecognizedEvent (ct : String) (v : Value) : AgentEvent :=
  { type := "callback_unrecognized_output",
    content := "Callback returned unknown type: " ++ pyTypeRepr v,
    callback_type := some ct }

/-- callbacks.py lines 89-91: iterate a returned list, yielding only the
elements that are `AgentEvent` instances. -/
def extractEvents (l : List ListItem) : List AgentEvent :=
  l.filterMap fun li => match li with
    | .liEvent e => some e
    | _ => none

/-- The `try` body of `run_callback_with_events` (lines 62-106): the events
yielded between the start and result markers, and the target slot value
after it.  `slot0` is the slot value on entry. -/
def dispatchBody (ct : String) (slot0 : Value) : CallbackBehavior → List AgentEvent × Value
  | .streaming evs upd =>
      -- Case 1 (lines 66-72): forward the stream, then reset a falsy slot to None
      let s1 := upd.getD slot0
      (evs, if truthy s1 then s1 else Value.vNone)
  | .asyncReturn v =>
      match v with
      -- Case 2 (lines 79-81): str | None; store only a truthy string
      | .vStr s => ([], if s == "" then slot0 else Value.vStr s)
      | .vNone => ([], slot0)
      -- Case 3 (lines 84-85): a single event is forwarded
      | .vEvent e => ([e], slot0)
      -- Case 4 (lines 88-91): a list is iterated, events forwarded
      | .vList l => (extractEvents l, slot0)
      -- Case 5 (lines 94-99): anything else (dict, int, ...) is unrecognized
      | v => ([unrecognizedEvent ct v], slot0)
  | .syncReturn v =>
      -- line 76 `await result` on a non-awaitable raises TypeError,
      -- caught by lines 101-106
      ([errorEventCb ct "TypeError"
          ("object " ++ pyTypeName v ++ " can\x27t be used in \x27await\x27 expression")],
       slot0)
  | .asyncRaise en em => ([errorEventCb ct en em], slot0)
  | .streamingRaise evs upd en em =>
      -- the exception aborts the `async for`, skipping the lines 70-72 reset
      (evs ++ [errorEventCb ct en em], upd.getD slot0)

/-- app/agents/callbacks.py `run_callback_with_events`: absent callback →
no events, slot untouched; otherwise start event, try-body, result event. -/
def run_callback_with_events (cb : Option CallbackBehavior) (ct : String) (slot0 : Value) :
    DispatchOut :=
  match cb with
  | none => ⟨[], slot0⟩
  | some b =>
      let bd := dispatchBody ct slot0 b
      ⟨startEvent ct :: bd.1 ++ [resultEvent ct bd.2], bd.2⟩

/-- The callback's own ("inner") events under each non-raising shape. -/
def innerEvents : CallbackBehavior → List AgentEvent
  | .streaming evs _ => evs
  | .asyncReturn (.vEvent e) => [e]
  | .asyncReturn (.vList l) => extractEvents l
  | _ => []

/-- The callback shapes whose invocation succeeds: a streaming async
generator, or a coroutine resolving to any value (single event, list,
string, mapping, number, None, ...).  Excluded are the raising shapes and
the synchronous shape, whose `await` raises (see C2 and C4). -/
def isReturningShape : CallbackBehavior → Bool
  | .streaming _ _ => true
  | .asyncReturn _ => true
  | _ => false

/-- The event the Dispatcher interposes for a scalar return value that its
`isinstance` chain does not recognise (a mapping, a number, ...): one
`callback_unrecognized_output` event; empty for every other shape. -/
def unrecognizedPart (ct : String) : CallbackBehavior → List AgentEvent
  | .asyncReturn (.vInt n) => [unrecognizedEvent ct (.vInt n)]
  | .asyncReturn (.vDict d) => [unrecognizedEvent ct (.vDict d)]
  | _ => []

/-!
## Tool Protocol — app/agents/tools/base.py, `BaseTool`

A tool's `run` is modelled by its observable behaviour:
  * `streams evs res` — `run(...)` returned an async generator yielding
    `evs`; `res` is the last value it assigned to `context.tool_result`
    (if any);
  * `awaits v` — an awaitable resolving to the value `v` (stored as
    `str(v)`);
  * `raisesAt evs en em` — `run` raised exception `en(em)` after yielding
    `evs` (empty for an awaitable that raises);
  * `syncResult v` — `run` returned a value that is neither an async
    generator nor awaitable (the code raises and catches a `ValueError`).
-/

inductive RunBehavior where
  | streams (events : List AgentEvent) (result : Option Value)
  | awaits (v : Value)
  | raisesAt (events : List AgentEvent) (ename emsg : String)
  | syncResult (v : Value)
deriving DecidableEq

/-- One registered tool: its name, the behaviour of its `run`, and the
optional before/after tool callbacks passed to `BaseTool.__init__`. -/
structure ToolSpec where
  name : String
  runBehavior : RunBehavior
  before_tool_callback : Option CallbackBehavior
  after_tool_callback : Option CallbackBehavior
deriving DecidableEq

/-- The serialized arguments attached to a model tool call.  `json.loads`
on a serialization either succeeds with a dict (`rJson (some d)`) or
raises `JSONDecodeError` (`rJson none`). -/
inductive RawArgs where
  | rNone
  | rDict (d : Args)
  | rJson (decoded : Option Args)
deriving DecidableEq

/-- base.py `parse_tool_args`: None → {}; a dict passes through; a string is
json-decoded with an empty-dict fallback on decode failure. -/
def parse_tool_args : RawArgs → Args
  | .rNone => []
  | .rDict d => d
  | .rJson (some d) => d
  | .rJson none => []

/-- An OpenAI `ChatCompletionMessageToolCall`: id, function name, raw args. -/
structure ToolCallReq where
  id : String
  fn_name : String
  arguments : RawArgs
deriving DecidableEq

/-- The two slots of `CallbackContext` that `BaseTool.execute` reads and
writes (`tool_input`, `tool_result`).  The remaining slots of the Python
class are neither read nor written on the tool path, so they are omitted.
An unset slot is `Value.vNone`. -/
structure CallbackContext where
  tool_input : Value
  tool_result : Value
deriving DecidableEq

/-- base.py lines 126-130: the message rejecting non-dict effective args. -/
def invalidArgsMsg (toolName : String) (args : Value) : String :=
  "Tool \x27" ++ toolName ++ "\x27 expected arguments as a dict, got "
    ++ pyTypeName args ++ "."

/-- base.py lines 152-155: the ValueError message for an invalid `run` result
shape, as rendered by the catch at line 163. -/
def invalidRunResultMsg (toolName : String) (v : Value) : String :=
  "ValueError: Tool \x27" ++ toolName ++ "\x27 .run() returned an invalid result. "
    ++ "Expected async generator or awaitable function, got " ++ pyTypeName v

/-- base.py `run_tool_and_parse_output`: runs the tool body on the effective
arguments, returning the yielded events and the updated context.  The
non-dict check precedes any invocation of `run`. -/
def run_tool_and_parse_output (t : ToolSpec) (effective_args : Value)
    (ctx : CallbackContext) : List AgentEvent × CallbackContext :=
  match effective_args with
  | .vDict d =>
      match t.runBehavior with
      | .streams evs res =>
          -- Case 1 (lines 141-143): forward the stream; the tool itself may
          -- have written tool_result
          (evs, match res with
                | some v => { ctx with tool_result := v }
                | none => ctx)
      | .awaits v =>
          -- Case 2 (lines 146-148): store str(result)
          ([], { ctx with tool_result := Value.vStr (pyStr v) })
      | .raisesAt evs en em =>
          -- lines 162-169: the exception message becomes tool_result and an
          -- error event carrying tool_name and the effective args
          let msg := en ++ ": " ++ em
          (evs ++ [{ type := "error", content := msg,
                     tool_name := some t.name, tool_args := some d }],
           { ctx with tool_result := Value.vStr msg })
      | .syncResult v =>
          -- lines 150-155 raise ValueError, caught by lines 162-169
          let msg := invalidRunResultMsg t.name v
          ([{ type := "error", content := msg,
              tool_name := some t.name, tool_args := some d }],
           { ctx with tool_result := Value.vStr msg })
  | other =>
      -- lines 126-133: reject non-mapping arguments without running the tool;
      -- this error event carries no tool_name/tool_args
      let msg := invalidArgsMsg t.name other
      ([{ type := "error", content := msg }],
       { ctx with tool_result := Value.vStr msg })

/-- base.py lines 201-207: the opening `tool_call` event. -/
def toolCallEvent (fn_name : String) (fn_args : Args) (callId : String) : AgentEvent :=
  { type := "tool_call",
    content := "Calling " ++ fn_name ++ " with " ++ jsonDumps fn_args,
    tool_name := some fn_name, tool_args := some fn_args,
    tool_call_id := some callId }

/-- base.py lines 253-256: the sentinel written when no result was produced. -/
def sentinelResult : String := "Error: No result returned from tool execution."

/-- base.py lines 258-263: the terminal `tool_result` event. -/
def finalToolResultEvent (fn_name callId : String) (res : Value) : AgentEvent :=
  { type := "tool_result", content := pyStr res,
    tool_name := some fn_name, tool_call_id := some callId }

/-- base.py lines 213-221: the before-tool callback phase, dispatched against
slot `tool_input`. -/
def executeBeforePhase (t : ToolSpec) (ctx : CallbackContext) :
    List AgentEvent × CallbackContext :=
  match t.before_tool_callback with
  | none => ([], ctx)
  | some b =>
      let d := run_callback_with_events (some b) "before_tool_callback" ctx.tool_input
      (d.events, { ctx with tool_input := d.slot })

/-- base.py lines 239-247: the after-tool callback phase, dispatched against
slot `tool_result` and gated on a truthy result. -/
def executeAfterPhase (t : ToolSpec) (ctx : CallbackContext) :
    List AgentEvent × CallbackContext :=
  match t.after_tool_callback with
  | none => ([], ctx)
  | some b =>
      if truthy ctx.tool_result then
        let d := run_callback_with_events (some b) "after_tool_callback" ctx.tool_result
        (d.events, { ctx with tool_result := d.slot })
      else ([], ctx)

/-- base.py lines 253-256: replace an unset (`None`) tool_result with the
sentinel string before the terminal event. -/
def executeFinalize (ctx : CallbackContext) : CallbackContext :=
  if ctx.tool_result = Value.vNone then
    { ctx with tool_result := Value.vStr sentinelResult }
  else ctx

/-- `BaseTool.execute` steps 1-4 (lines 192-247): slot reset, argument
parsing, `tool_call` event, before hook, tool body, after hook. -/
def executeCore (t : ToolSpec) (call : ToolCallReq) (ctx : CallbackContext) :
    List AgentEvent × CallbackContext :=
  let ctx1 := { ctx with tool_input := Value.vNone, tool_result := Value.vNone }
  let fn_args := parse_tool_args call.arguments
  let b := executeBeforePhase t ctx1
  -- lines 223-225: `context.tool_input if context.tool_input is not None else fn_args`
  let effective := match b.2.tool_input with
    | Value.vNone => Value.vDict fn_args
    | v => v
  let r := run_tool_and_parse_output t effective b.2
  let a := executeAfterPhase t r.2
  (toolCallEvent call.fn_name fn_args call.id :: b.1 ++ r.1 ++ a.1, a.2)

/-- `BaseTool.execute` (lines 176-263): the full tool protocol, ending with
the sentinel fallback and the terminal `tool_result` event. -/
def execute (t : ToolSpec) (call : ToolCallReq) (ctx : CallbackContext) :
    List AgentEvent × CallbackContext :=
  let core := executeCore t call ctx
  let ctx5 := executeFinalize core.2
  (core.1 ++ [finalToolResultEvent call.fn_name call.id ctx5.tool_result], ctx5)

/-- Whether a value is a Python mapping (`isinstance(x, dict)`). -/
def isDictV : Value → Bool
  | .vDict _ => true
  | _ => false

/-!
## Reasoning loop — app/agents/llm_agent.py, `LLMAgent._process_turn`

The provider is abstracted as a script of steps, one consumed per loop
iteration: `failure msg` models `client.chat.completions.create` raising
(with `str(e) = msg`), `reply content tool_calls` models a successful
response message.  The tool registry maps a name to the behaviour of
`await tool.run(**args)`: `ok v` resolves to `v` (yielding `str(v)`),
`raisesWith m` raises with `str(e) = m`.  The `tools=...` request
parameter affects only the provider request, which the script already
abstracts.
-/

inductive LoopToolOutcome where
  | ok (v : Value)
  | raisesWith (emsg : String)

/-- `self.tools`: the agent's name-keyed tool registry. -/
abbrev ToolRegistry := List (String × (Args → LoopToolOutcome))

/-- One entry of the `messages` list the loop accumulates. -/
inductive ChatMessage where
  | system (content : String)
  | user (content : String)
  | assistant (content : Option String) (tool_calls : Option (List ToolCallReq))
  | toolMsg (tool_call_id : String) (name : String) (content : String)
deriving DecidableEq

/-- One scripted provider interaction. -/
inductive ProviderStep where
  | failure (emsg : String)
  | reply (content : Option String) (tool_calls : List ToolCallReq)
deriving DecidableEq

/-- Python truthiness of the optional `message.content` string. -/
def truthyOpt : Option String → Bool
  | none => false
  | some s => !(s == "")

/-- llm_agent.py lines 94-100: the assistant message appended after each
model response (`content`/`tool_calls` keys present only when truthy). -/
def assistantMsg (content : Option String) (tcs : List ToolCallReq) : ChatMessage :=
  ChatMessage.assistant (if truthyOpt content then content else none)
    (if tcs.isEmpty then none else some tcs)

/-- llm_agent.py lines 127-135: dict lookup in `self.tools`, running the tool
and stringifying, with the not-found and exception fallback strings. -/
def loopToolResultStr (reg : ToolRegistry) (fn_name : String) (fn_args : Args) : String :=
  match (reg.find? fun p => p.1 == fn_name).map Prod.snd with
  | none => "Error: Tool " ++ fn_name ++ " not found."
  | some f =>
      match f fn_args with
      | .ok v => pyStr v
      | .raisesWith em => "Error executing tool " ++ fn_name ++ ": " ++ em

/-- llm_agent.py lines 108-146: one requested tool call — decode the
arguments (empty-dict fallback), yield a `tool_call` event, run the tool,
yield a `tool_result` event, and build the tool-role message. -/
def execLoopToolCall (reg : ToolRegistry) (tc : ToolCallReq) :
    List AgentEvent × ChatMessage :=
  let fn_args := parse_tool_args tc.arguments
  let result_str := loopToolResultStr reg tc.fn_name fn_args
  ([toolCallEvent tc.fn_name fn_args tc.id,
    { type := "tool_result", content := result_str,
      tool_name := some tc.fn_name, tool_call_id := some tc.id }],
   ChatMessage.toolMsg tc.id tc.fn_name result_str)

/-- Result of running the `while True` loop against a provider script. -/
structure TurnOut where
  events : List AgentEvent
  messages : List ChatMessage
  finished : Bool
deriving DecidableEq

/-- llm_agent.py lines 74-155, the `while True` loop.  One script step is
consumed per iteration; `finished = false` means the script was exhausted
with the loop still running (the real loop would call the provider again).
A provider failure yields one `error` event and breaks; a reply without
tool calls yields an `answer` event for truthy content and breaks; a reply
with tool calls yields an optional `thought`, the tool events, and loops. -/
def processTurnLoop (reg : ToolRegistry) :
    List ProviderStep → List ChatMessage → TurnOut
  | [], msgs => ⟨[], msgs, false⟩
  | ProviderStep.failure em :: _, msgs =>
      -- lines 82-85: except → error event, break
      ⟨[{ type := "error", content := em }], msgs, true⟩
  | ProviderStep.reply c [] :: _, msgs =>
      -- lines 149-155: no tool calls → answer (if truthy content), break
      ⟨if truthyOpt c then [{ type := "answer", content := c.getD "" }] else [],
       msgs ++ [assistantMsg c []], true⟩
  | ProviderStep.reply c (tc :: tcs) :: rest, msgs =>
      -- lines 102-148: optional thought, execute each tool call, loop back
      let calls := (tc :: tcs).map (execLoopToolCall reg)
      let r := processTurnLoop reg rest
        ((msgs ++ [assistantMsg c (tc :: tcs)]) ++ calls.map Prod.snd)
      ⟨(if truthyOpt c then [{ type := "thought", content := c.getD "" }] else [])
         ++ ((calls.map Prod.fst).flatten ++ r.events),
       r.messages, r.finished⟩

/-- `LLMAgent._process_turn` (lines 45-155): build the initial message list
(system prompt, history, user input) and run the reasoning loop. -/
def processTurn (reg : ToolRegistry) (history : List ChatMessage)
    (user_input : String) (script : List ProviderStep) : TurnOut :=
  processTurnLoop reg script
    (ChatMessage.system "You are a helpful assistant. Use tools when necessary."
      :: history ++ [ChatMessage.user user_input])

/-- A provider reply that carries at least one tool call. -/
def isToolReply : ProviderStep → Bool
  | .reply _ (_ :: _) => true
  | _ => false

/-- The events yielded by one loop iteration over a tool-carrying reply
(empty for the other step shapes, which end the loop). -/
def stepEvents (reg : ToolRegistry) : ProviderStep → List AgentEvent
  | .reply c (tc :: tcs) =>
      (if truthyOpt c then [{ type := "thought", content := c.getD "" }] else [])
        ++ (((tc :: tcs).map (execLoopToolCall reg)).map Prod.fst).flatten
  | _ => []

/-- Number of events of a given type in a stream. -/
def countType (evs : List AgentEvent) (t : String) : Nat :=
  (evs.filter fun e => e.type == t).length

/-!
## Claims about the Callback Dispatcher (C1 - C5)
-/

/-- C1 counterexample.  A callback whose awaited scalar return is not a
string (here the number 7, a shape the claim's "scalar value" includes)
falsifies the claim as stated: the in-between events are not the
callback's inner events (none, for a scalar) — the Dispatcher interposes a
`callback_unrecognized_output` event between the start and result
markers. -/
theorem dispatcher_sandwich_claim_false :
    ¬ ((run_callback_with_events
          (some (CallbackBehavior.asyncReturn (Value.vInt 7))) "test_cb" Value.vNone).events
        = startEvent "test_cb"
            :: (innerEvents (CallbackBehavior.asyncReturn (Value.vInt 7))
                ++ [resultEvent "test_cb"
                      (run_callback_with_events
                        (some (CallbackBehavior.asyncReturn (Value.vInt 7)))
                        "test_cb" Value.vNone).slot])) := by
  decide

/-- C1 (amended).  For every non-absent callback whose invocation succeeds —
a streaming async generator, or a coroutine resolving to any value (single
event, list of events, string, mapping, number, None) — the Dispatcher's
event sequence is exactly one `execute_callback` start event (the spec's
`callback_start`), then the callback's inner events in their original
order — followed, only for a scalar return that is not a string (mapping,
number, ...), by one interposed `callback_unrecognized_output` event —
then exactly one `execute_callback_result` event (the spec's
`callback_result`) carrying the final slot value. -/
theorem dispatcher_sandwich (b : CallbackBehavior) (ct : String) (slot0 : Value)
    (hb : isReturningShape b = true) :
    (run_callback_with_events (some b) ct slot0).events
      = startEvent ct
          :: ((innerEvents b ++ unrecognizedPart ct b)
              ++ [resultEvent ct (run_callback_with_events (some b) ct slot0).slot]) := by
  cases b with
  | streaming evs upd => simp [run_callback_with_events, dispatchBody, innerEvents, unrecognizedPart]
  | asyncReturn v =>
      cases v with
      | vStr s => rfl
      | vNone => rfl
      | vEvent e => rfl
      | vList l => simp [run_callback_with_events, dispatchBody, innerEvents, unrecognizedPart]
      | vInt n => rfl
      | vDict d => rfl
  | syncReturn v => exact Bool.noConfusion hb
  | asyncRaise en em => exact Bool.noConfusion hb
  | streamingRaise evs upd en em => exact Bool.noConfusion hb

/-- Witness for C1: a concrete callback returning the mapping
`{"key": "value"}` — a shape the original claim covered but the narrow
string-scalar reading would miss. -/
theorem dispatcher_sandwich_witness :
    isReturningShape (CallbackBehavior.asyncReturn
        (Value.vDict [("key", Prim.pStr "value")])) = true
    ∧ (run_callback_with_events (some (CallbackBehavior.asyncReturn
          (Value.vDict [("key", Prim.pStr "value")]))) "test_cb" Value.vNone).events
        = startEvent "test_cb"
            :: ((innerEvents (CallbackBehavior.asyncReturn
                    (Value.vDict [("key", Prim.pStr "value")]))
                  ++ unrecognizedPart "test_cb" (CallbackBehavior.asyncReturn
                    (Value.vDict [("key", Prim.pStr "value")])))
                ++ [resultEvent "test_cb"
                      (run_callback_with_events (some (CallbackBehavior.asyncReturn
                        (Value.vDict [("key", Prim.pStr "value")])))
                        "test_cb" Value.vNone).slot]) :=
  ⟨rfl, dispatcher_sandwich _ "test_cb" Value.vNone rfl⟩

/-- C2.  A callback that raises — whether before returning a value or midway
through a streamed sequence — produces exactly one `error` event carrying
the exception's type name and message, followed by the closing
`execute_callback_result` event: the Dispatcher completes its protocol
normally, so the exception never reaches its caller, and the target slot
is not overwritten by the failure. -/
theorem callback_error_contained (ct : String) (slot0 : Value) (en em : String)
    (evs : List AgentEvent) (upd : Option Value) :
    run_callback_with_events (some (CallbackBehavior.asyncRaise en em)) ct slot0
      = ⟨[startEvent ct, errorEventCb ct en em, resultEvent ct slot0], slot0⟩
    ∧ run_callback_with_events
        (some (CallbackBehavior.streamingRaise evs upd en em)) ct slot0
      = ⟨startEvent ct
           :: (evs ++ [errorEventCb ct en em, resultEvent ct (upd.getD slot0)]),
         upd.getD slot0⟩ := by
  refine ⟨rfl, ?_⟩
  simp [run_callback_with_events, dispatchBody]

/-- C3 (divergence).  An awaited dict return value is not stored: the code's
`isinstance(result, str | None)` branch recognises only strings, so a
mapping falls through to the `callback_unrecognized_output` fallback and
the target slot keeps `None` — the repository's own test
(`test_run_callback_returns_dict`) asserts the mapping is stored.  The
string and None sub-cases of the claim do hold, as the last two conjuncts
show. -/
theorem dict_return_not_stored :
    run_callback_with_events
        (some (CallbackBehavior.asyncReturn
          (Value.vDict [("key", Prim.pStr "value"), ("count", Prim.pInt 42)])))
        "dict_test" Value.vNone
      = ⟨[startEvent "dict_test",
          unrecognizedEvent "dict_test"
            (Value.vDict [("key", Prim.pStr "value"), ("count", Prim.pInt 42)]),
          resultEvent "dict_test" Value.vNone],
         Value.vNone⟩
    ∧ (run_callback_with_events
        (some (CallbackBehavior.asyncReturn (Value.vStr "new_val")))
        "test_cb" Value.vNone).slot = Value.vStr "new_val"
    ∧ (run_callback_with_events
        (some (CallbackBehavior.asyncReturn Value.vNone))
        "none_return_test" (Value.vStr "original")).slot = Value.vStr "original" :=
  ⟨rfl, rfl, rfl⟩

/-- C4 (divergence).  A synchronous callback is not invoked successfully:
its return value is not awaitable, so line 76's `await result` raises
`TypeError`, which the catch turns into an `error` event; the returned
string is never stored.  The repository's own test
(`test_run_callback_sync_function`) asserts the string is stored. -/
theorem sync_callback_type_error :
    run_callback_with_events
        (some (CallbackBehavior.syncReturn (Value.vStr "sync_result")))
        "sync_test" Value.vNone
      = ⟨[startEvent "sync_test",
          errorEventCb "sync_test" "TypeError"
            "object str can\x27t be used in \x27await\x27 expression",
          resultEvent "sync_test" Value.vNone],
         Value.vNone⟩ := rfl

/-- C5 counterexample.  A streaming callback that writes the empty string
into the target slot does not leave the slot holding that value: the
post-stream falsiness check (lines 70-72) resets it to `None`, so the
Dispatcher itself wrote to the slot. -/
theorem streaming_claim_false :
    ¬ ((run_callback_with_events
          (some (CallbackBehavior.streaming [] (some (Value.vStr ""))))
          "before_tool_callback" Value.vNone).slot = Value.vStr "") := by
  decide

/-- C5 (amended).  For a streaming callback the Dispatcher forwards every
produced event verbatim between the start and result markers, and the final
slot value is the value the callback left there — except that a falsy left
value (None, empty string, zero, empty collection) is normalised to `None`
after the stream completes. -/
theorem streaming_slot_normalized (ct : String) (slot0 : Value)
    (evs : List AgentEvent) (upd : Option Value) :
    (run_callback_with_events (some (CallbackBehavior.streaming evs upd)) ct slot0).events
      = startEvent ct
          :: (evs ++ [resultEvent ct
                (run_callback_with_events
                  (some (CallbackBehavior.streaming evs upd)) ct slot0).slot])
    ∧ (run_callback_with_events (some (CallbackBehavior.streaming evs upd)) ct slot0).slot
      = (if truthy (upd.getD slot0) then upd.getD slot0 else Value.vNone) :=
  ⟨rfl, rfl⟩

/-!
## Claims about the Tool Protocol (C6, C7, C10)
-/

/-- C6 (amended).  Every `BaseTool.execute` invocation — including a raising
tool — ends with exactly one terminal `tool_result` event whose content is
the final `tool_result` slot; that slot is never `None` at the end, because
a slot still unset (`None`) after the tool body and the after-tool hook is
first replaced by the sentinel string.  (The original claim's "non-empty
string" is too strong: a tool that produces the empty string passes the
`is None` check unchanged, see the counterexample.) -/
theorem tool_result_event_terminal (t : ToolSpec) (call : ToolCallReq)
    (ctx : CallbackContext) :
    (∃ es, (execute t call ctx).1
        = es ++ [finalToolResultEvent call.fn_name call.id
                  (execute t call ctx).2.tool_result])
    ∧ (execute t call ctx).2.tool_result ≠ Value.vNone
    ∧ (execute t call ctx).2.tool_result
        = (if (executeCore t call ctx).2.tool_result = Value.vNone
           then Value.vStr sentinelResult
           else (executeCore t call ctx).2.tool_result) := by
  refine ⟨⟨(executeCore t call ctx).1, rfl⟩, ?_, ?_⟩
  · show (executeFinalize (executeCore t call ctx).2).tool_result ≠ Value.vNone
    unfold executeFinalize
    split
    · simp
    · next h => exact h
  · show (executeFinalize (executeCore t call ctx).2).tool_result = _
    unfold executeFinalize
    split <;> simp

/-- C6 counterexample.  A tool whose awaited result stringifies to the empty
string yields a terminal `tool_result` event with empty content: the
sentinel replaces only a `None` slot, not an empty string. -/
theorem tool_result_empty_content :
    (execute ⟨"empty_tool", RunBehavior.awaits (Value.vStr ""), none, none⟩
        ⟨"call_1", "empty_tool", RawArgs.rDict []⟩
        ⟨Value.vNone, Value.vNone⟩).1.getLast?
      = some { type := "tool_result", content := "",
               tool_name := some "empty_tool", tool_call_id := some "call_1" } := rfl

/-- C7.  Non-mapping effective arguments are rejected before the tool body:
the only event is an `error` event carrying the synthesized message, that
same message is written into the `tool_result` slot, and the output is
independent of the tool body's behaviour (the `run` body is never
invoked). -/
theorem invalid_args_rejected (name : String) (rb rb' : RunBehavior)
    (bcb acb : Option CallbackBehavior) (args : Value) (ctx : CallbackContext)
    (h : isDictV args = false) :
    run_tool_and_parse_output ⟨name, rb, bcb, acb⟩ args ctx
      = ([{ type := "error", content := invalidArgsMsg name args }],
         { ctx with tool_result := Value.vStr (invalidArgsMsg name args) })
    ∧ run_tool_and_parse_output ⟨name, rb, bcb, acb⟩ args ctx
      = run_tool_and_parse_output ⟨name, rb', bcb, acb⟩ args ctx := by
  cases args with
  | vDict d => exact Bool.noConfusion h
  | vStr s => exact ⟨rfl, rfl⟩
  | vNone => exact ⟨rfl, rfl⟩
  | vInt n => exact ⟨rfl, rfl⟩
  | vEvent e => exact ⟨rfl, rfl⟩
  | vList l => exact ⟨rfl, rfl⟩

/-- Witness for C7: the repository test's input, a plain string instead of a
dict. -/
theorem invalid_args_rejected_witness :
    isDictV (Value.vStr "not a dict") = false
    ∧ (run_tool_and_parse_output
          ⟨"mock_tool", RunBehavior.awaits (Value.vStr "x"), none, none⟩
          (Value.vStr "not a dict") ⟨Value.vNone, Value.vNone⟩
        = ([{ type := "error",
              content := invalidArgsMsg "mock_tool" (Value.vStr "not a dict") }],
           { tool_input := Value.vNone,
             tool_result := Value.vStr (invalidArgsMsg "mock_tool" (Value.vStr "not a dict")) })
      ∧ run_tool_and_parse_output
          ⟨"mock_tool", RunBehavior.awaits (Value.vStr "x"), none, none⟩
          (Value.vStr "not a dict") ⟨Value.vNone, Value.vNone⟩
        = run_tool_and_parse_output
            ⟨"mock_tool", RunBehavior.raisesAt [] "ValueError" "Test Error", none, none⟩
            (Value.vStr "not a dict") ⟨Value.vNone, Value.vNone⟩) :=
  ⟨rfl, invalid_args_rejected "mock_tool" (RunBehavior.awaits (Value.vStr "x"))
          (RunBehavior.raisesAt [] "ValueError" "Test Error") none none
          (Value.vStr "not a dict") ⟨Value.vNone, Value.vNone⟩ rfl⟩

/-- C10.  `BaseTool.execute` resets the `tool_input` and `tool_result` slots
to None before the `tool_call` event, the hooks and the tool body run, so
its behaviour — events and final context alike — is identical for any two
starting slot states: nothing left by an earlier invocation on the same
context can leak into a later one. -/
theorem execute_resets_slots (t : ToolSpec) (call : ToolCallReq)
    (ti tr ti' tr' : Value) :
    execute t call ⟨ti, tr⟩ = execute t call ⟨ti', tr'⟩ := rfl

/-!
## Claims about the reasoning loop (C8, C9)
-/

/-- A step at which the `while True` loop breaks. -/
def isTerminal : ProviderStep → Bool
  | .failure _ => true
  | .reply _ [] => true
  | _ => false

lemma countType_append (a b : List AgentEvent) (t : String) :
    countType (a ++ b) t = countType a t + countType b t := by
  simp [countType, List.filter_append]

lemma countType_flatten_zero (ls : List (List AgentEvent)) (t : String)
    (h : ∀ l ∈ ls, countType l t = 0) : countType ls.flatten t = 0 := by
  induction ls with
  | nil => rfl
  | cons a ls ih =>
      simp only [List.flatten_cons, countType_append]
      rw [h a (by simp), ih fun l hl => h l (by simp [hl])]

lemma execLoop_count_ans (reg : ToolRegistry) (tc : ToolCallReq) :
    countType (execLoopToolCall reg tc).1 "answer" = 0 := rfl

lemma execLoop_count_err (reg : ToolRegistry) (tc : ToolCallReq) :
    countType (execLoopToolCall reg tc).1 "error" = 0 := rfl

lemma stepEvents_count_ans (reg : ToolRegistry) (s : ProviderStep) :
    countType (stepEvents reg s) "answer" = 0 := by
  cases s with
  | failure em => rfl
  | reply c tcs =>
      cases tcs with
      | nil => rfl
      | cons tc tcs' =>
          simp only [stepEvents, countType_append]
          have h1 : countType
              (if truthyOpt c then [{ type := "thought", content := c.getD "" }] else [])
              "answer" = 0 := by
            cases htc : truthyOpt c <;> simp [htc] <;> rfl
          have h2 : countType
              ((((tc :: tcs').map (execLoopToolCall reg)).map Prod.fst).flatten)
              "answer" = 0 := by
            apply countType_flatten_zero
            intro l hl
            simp only [List.map_map, List.mem_map] at hl
            obtain ⟨tc0, _, rfl⟩ := hl
            exact execLoop_count_ans reg tc0
          rw [h1, h2]

lemma stepEvents_count_err (reg : ToolRegistry) (s : ProviderStep) :
    countType (stepEvents reg s) "error" = 0 := by
  cases s with
  | failure em => rfl
  | reply c tcs =>
      cases tcs with
      | nil => rfl
      | cons tc tcs' =>
          simp only [stepEvents, countType_append]
          have h1 : countType
              (if truthyOpt c then [{ type := "thought", content := c.getD "" }] else [])
              "error" = 0 := by
            cases htc : truthyOpt c <;> simp [htc] <;> rfl
          have h2 : countType
              ((((tc :: tcs').map (execLoopToolCall reg)).map Prod.fst).flatten)
              "error" = 0 := by
            apply countType_flatten_zero
            intro l hl
            simp only [List.map_map, List.mem_map] at hl
            obtain ⟨tc0, _, rfl⟩ := hl
            exact execLoop_count_err reg tc0
          rw [h1, h2]

/-- One-step unfolding of the loop at a provider failure. -/
lemma loop_step_failure (reg : ToolRegistry) (em : String)
    (rest : List ProviderStep) (msgs : List ChatMessage) :
    processTurnLoop reg (ProviderStep.failure em :: rest) msgs
      = ⟨[{ type := "error", content := em }], msgs, true⟩ := rfl

/-- One-step unfolding of the loop at a reply without tool calls. -/
lemma loop_step_answer (reg : ToolRegistry) (c : Option String)
    (rest : List ProviderStep) (msgs : List ChatMessage) :
    processTurnLoop reg (ProviderStep.reply c [] :: rest) msgs
      = ⟨if truthyOpt c then [{ type := "answer", content := c.getD "" }] else [],
         msgs ++ [assistantMsg c []], true⟩ := rfl

/-- One-step unfolding of the loop at a reply carrying tool calls. -/
lemma loop_step_tools (reg : ToolRegistry) (c : Option String) (tc : ToolCallReq)
    (tcs : List ToolCallReq) (rest : List ProviderStep) (msgs : List ChatMessage) :
    processTurnLoop reg (ProviderStep.reply c (tc :: tcs) :: rest) msgs
      = ⟨(if truthyOpt c then [{ type := "thought", content := c.getD "" }] else [])
           ++ ((((tc :: tcs).map (execLoopToolCall reg)).map Prod.fst).flatten
               ++ (processTurnLoop reg rest
                    ((msgs ++ [assistantMsg c (tc :: tcs)])
                      ++ ((tc :: tcs).map (execLoopToolCall reg)).map Prod.snd)).events),
         (processTurnLoop reg rest
            ((msgs ++ [assistantMsg c (tc :: tcs)])
              ++ ((tc :: tcs).map (execLoopToolCall reg)).map Prod.snd)).messages,
         (processTurnLoop reg rest
            ((msgs ++ [assistantMsg c (tc :: tcs)])
              ++ ((tc :: tcs).map (execLoopToolCall reg)).map Prod.snd)).finished⟩ := rfl

/-- The loop never reads past the step at which it breaks. -/
lemma loop_ignores_rest (reg : ToolRegistry) (pre : List ProviderStep)
    (last : ProviderStep) (rest : List ProviderStep) (msgs : List ChatMessage)
    (hl : isTerminal last = true) :
    processTurnLoop reg (pre ++ last :: rest) msgs
      = processTurnLoop reg (pre ++ [last]) msgs := by
  induction pre generalizing msgs with
  | nil =>
      cases last with
      | failure em => rfl
      | reply c tcs =>
          cases tcs with
          | nil => rfl
          | cons tc tcs' => exact Bool.noConfusion hl
  | cons s pre ih =>
      cases s with
      | failure em => rfl
      | reply c tcs =>
          cases tcs with
          | nil => rfl
          | cons tc tcs' =>
              show processTurnLoop reg
                  (ProviderStep.reply c (tc :: tcs') :: (pre ++ last :: rest)) msgs
                = processTurnLoop reg
                  (ProviderStep.reply c (tc :: tcs') :: (pre ++ [last])) msgs
              rw [loop_step_tools, loop_step_tools, ih]

/-- Running the loop over a block of tool-carrying replies prepends those
iterations' events and continues with the remaining script. -/
lemma loop_structure (reg : ToolRegistry) (pre rest : List ProviderStep)
    (msgs : List ChatMessage) (hpre : pre.all isToolReply = true) :
    ∃ msgs2, processTurnLoop reg (pre ++ rest) msgs
      = ⟨(pre.map (stepEvents reg)).flatten ++ (processTurnLoop reg rest msgs2).events,
         (processTurnLoop reg rest msgs2).messages,
         (processTurnLoop reg rest msgs2).finished⟩ := by
  induction pre generalizing msgs with
  | nil => exact ⟨msgs, by simp⟩
  | cons s pre ih =>
      rw [List.all_cons, Bool.and_eq_true] at hpre
      obtain ⟨h1, h2⟩ := hpre
      cases s with
      | failure em => exact Bool.noConfusion h1
      | reply c tcs =>
          cases tcs with
          | nil => exact Bool.noConfusion h1
          | cons tc tcs' =>
              obtain ⟨m2, hm⟩ := ih
                ((msgs ++ [assistantMsg c (tc :: tcs')])
                  ++ ((tc :: tcs').map (execLoopToolCall reg)).map Prod.snd) h2
              refine ⟨m2, ?_⟩
              show processTurnLoop reg
                  (ProviderStep.reply c (tc :: tcs') :: (pre ++ rest)) msgs = _
              rw [loop_step_tools, hm]
              simp [stepEvents, List.append_assoc]

/-- C9.  When the provider call raises after any number of tool-carrying
rounds, the turn ends at that point: later script steps are never
consulted, the loop reports finished, the stream is the earlier rounds'
events plus exactly one `error` event carrying the provider message, and
no `answer` event occurs anywhere in the stream. -/
theorem provider_failure_terminal (reg : ToolRegistry) (history : List ChatMessage)
    (ui em : String) (pre rest : List ProviderStep)
    (hpre : pre.all isToolReply = true) :
    processTurn reg history ui (pre ++ ProviderStep.failure em :: rest)
      = processTurn reg history ui (pre ++ [ProviderStep.failure em])
    ∧ (processTurn reg history ui (pre ++ ProviderStep.failure em :: rest)).finished = true
    ∧ (processTurn reg history ui (pre ++ ProviderStep.failure em :: rest)).events
        = (pre.map (stepEvents reg)).flatten ++ [{ type := "error", content := em }]
    ∧ countType (processTurn reg history ui
        (pre ++ ProviderStep.failure em :: rest)).events "error" = 1
    ∧ countType (processTurn reg history ui
        (pre ++ ProviderStep.failure em :: rest)).events "answer" = 0 := by
  obtain ⟨m2, hm⟩ := loop_structure reg pre (ProviderStep.failure em :: rest)
    (ChatMessage.system "You are a helpful assistant. Use tools when necessary."
      :: history ++ [ChatMessage.user ui]) hpre
  have hev : (processTurn reg history ui (pre ++ ProviderStep.failure em :: rest)).events
      = (pre.map (stepEvents reg)).flatten ++ [{ type := "error", content := em }] := by
    show (processTurnLoop reg (pre ++ ProviderStep.failure em :: rest) _).events = _
    rw [hm, loop_step_failure]
  have hflat : countType ((pre.map (stepEvents reg)).flatten) "error" = 0 := by
    apply countType_flatten_zero
    intro l hl
    rw [List.mem_map] at hl
    obtain ⟨s, _, rfl⟩ := hl
    exact stepEvents_count_err reg s
  have hflata : countType ((pre.map (stepEvents reg)).flatten) "answer" = 0 := by
    apply countType_flatten_zero
    intro l hl
    rw [List.mem_map] at hl
    obtain ⟨s, _, rfl⟩ := hl
    exact stepEvents_count_ans reg s
  refine ⟨?_, ?_, hev, ?_, ?_⟩
  · exact loop_ignores_rest reg pre (ProviderStep.failure em) rest _ rfl
  · show (processTurnLoop reg (pre ++ ProviderStep.failure em :: rest) _).finished = true
    rw [hm, loop_step_failure]
  · rw [hev, countType_append, hflat]
    rfl
  · rw [hev, countType_append, hflata]
    rfl

/-- Witness for C9: one tool round, then the provider raises "boom". -/
theorem provider_failure_terminal_witness :
    ([ProviderStep.reply (some "using tool")
        [⟨"call_1", "simple_search", RawArgs.rJson (some [("query", Prim.pStr "math")])⟩]].all
      isToolReply = true)
    ∧ countType (processTurn
        [("simple_search", fun _ => LoopToolOutcome.ok (Value.vStr "42"))] [] "Calculate"
        ([ProviderStep.reply (some "using tool")
            [⟨"call_1", "simple_search", RawArgs.rJson (some [("query", Prim.pStr "math")])⟩]]
          ++ ProviderStep.failure "boom" :: [])).events "error" = 1
    ∧ countType (processTurn
        [("simple_search", fun _ => LoopToolOutcome.ok (Value.vStr "42"))] [] "Calculate"
        ([ProviderStep.reply (some "using tool")
            [⟨"call_1", "simple_search", RawArgs.rJson (some [("query", Prim.pStr "math")])⟩]]
          ++ ProviderStep.failure "boom" :: [])).events "answer" = 0 :=
  ⟨rfl,
   (provider_failure_terminal
      [("simple_search", fun _ => LoopToolOutcome.ok (Value.vStr "42"))] [] "Calculate" "boom"
      [ProviderStep.reply (some "using tool")
        [⟨"call_1", "simple_search", RawArgs.rJson (some [("query", Prim.pStr "math")])⟩]]
      [] rfl).2.2.2.1,
   (provider_failure_terminal
      [("simple_search", fun _ => LoopToolOutcome.ok (Value.vStr "42"))] [] "Calculate" "boom"
      [ProviderStep.reply (some "using tool")
        [⟨"call_1", "simple_search", RawArgs.rJson (some [("query", Prim.pStr "math")])⟩]]
      [] rfl).2.2.2.2⟩

/-- C8 (amended).  The reasoning loop exits at the first model response
carrying no tool calls (later script steps are never consulted; responses
with tool calls make it execute them and continue), and the turn's stream
then ends with exactly one `answer` event holding the response text when
that text is non-empty — but with no `answer` event at all when the
response text is absent or empty. -/
theorem loop_exit_answer (reg : ToolRegistry) (history : List ChatMessage)
    (ui : String) (c : Option String) (pre rest : List ProviderStep)
    (hpre : pre.all isToolReply = true) :
    processTurn reg history ui (pre ++ ProviderStep.reply c [] :: rest)
      = processTurn reg history ui (pre ++ [ProviderStep.reply c []])
    ∧ (processTurn reg history ui (pre ++ ProviderStep.reply c [] :: rest)).finished = true
    ∧ (processTurn reg history ui (pre ++ ProviderStep.reply c [] :: rest)).events
        = (pre.map (stepEvents reg)).flatten
            ++ (if truthyOpt c then [{ type := "answer", content := c.getD "" }] else [])
    ∧ countType (processTurn reg history ui
        (pre ++ ProviderStep.reply c [] :: rest)).events "answer"
        = (if truthyOpt c then 1 else 0) := by
  obtain ⟨m2, hm⟩ := loop_structure reg pre (ProviderStep.reply c [] :: rest)
    (ChatMessage.system "You are a helpful assistant. Use tools when necessary."
      :: history ++ [ChatMessage.user ui]) hpre
  have hev : (processTurn reg history ui (pre ++ ProviderStep.reply c [] :: rest)).events
      = (pre.map (stepEvents reg)).flatten
          ++ (if truthyOpt c then [{ type := "answer", content := c.getD "" }] else []) := by
    show (processTurnLoop reg (pre ++ ProviderStep.reply c [] :: rest) _).events = _
    rw [hm, loop_step_answer]
  have hflata : countType ((pre.map (stepEvents reg)).flatten) "answer" = 0 := by
    apply countType_flatten_zero
    intro l hl
    rw [List.mem_map] at hl
    obtain ⟨s, _, rfl⟩ := hl
    exact stepEvents_count_ans reg s
  refine ⟨?_, ?_, hev, ?_⟩
  · exact loop_ignores_rest reg pre (ProviderStep.reply c []) rest _ rfl
  · show (processTurnLoop reg (pre ++ ProviderStep.reply c [] :: rest) _).finished = true
    rw [hm, loop_step_answer]
  · rw [hev, countType_append, hflata]
    cases htc : truthyOpt c
    · simp [htc]
      rfl
    · simp [htc]
      rfl

/-- Witness for C8: one tool round, then a final answer "The answer is 42". -/
theorem loop_exit_answer_witness :
    ([ProviderStep.reply Option.none
        [⟨"call_1", "simple_search", RawArgs.rJson (some [("query", Prim.pStr "math")])⟩]].all
      isToolReply = true)
    ∧ countType (processTurn
        [("simple_search", fun _ => LoopToolOutcome.ok (Value.vStr "42"))] [] "Calculate"
        ([ProviderStep.reply Option.none
            [⟨"call_1", "simple_search", RawArgs.rJson (some [("query", Prim.pStr "math")])⟩]]
          ++ ProviderStep.reply (some "The answer is 42") [] :: [])).events "answer"
        = (if truthyOpt (some "The answer is 42") then 1 else 0) :=
  ⟨rfl,
   (loop_exit_answer
      [("simple_search", fun _ => LoopToolOutcome.ok (Value.vStr "42"))] [] "Calculate"
      (some "The answer is 42")
      [ProviderStep.reply Option.none
        [⟨"call_1", "simple_search", RawArgs.rJson (some [("query", Prim.pStr "math")])⟩]]
      [] rfl).2.2.2⟩

/-- C8 counterexample.  A first model response with no tool calls and no
content ends the turn with zero `answer` events, not exactly one: the
`if content:` guard suppresses the answer event for empty text. -/
theorem loop_no_answer_without_content :
    ¬ (countType (processTurn [] [] "Hi"
        [ProviderStep.reply Option.none []]).events "answer" = 1) := by
  decide

end AgenticChatbot
